import Mathlib

/-!
# TestOpening.js: the instruction screen of the aptitude test

Shallow embedding of `frontend/my-app/src/pages/TestOpening.js`.

The component is a JavaScript function that builds the literal array `property`
and returns a JSX expression.  A JSX expression `<T k=v ...>c ...</T>` is the call
`createElement(T, {k: v, ...}, c, ...)`; the embedding keeps exactly the arguments
of that call: the element type, the `key` attribute, the other attributes in the
order they are written, and the children in the order they are written.
JavaScript values that occur in the file are numbers, strings and the values bound
by the three asset imports; a field that an object does not have reads as
`undefined`.
-/

namespace MyApp

/-- JavaScript values occurring in the file. -/
inductive Val where
  | undefined
  | num (n : Nat)
  | str (s : String)
  deriving DecidableEq, Repr

/-- An object literal: its fields in the order they are written. -/
abbrev Obj := List (String × Val)

/-- Field read `o.f`: the value of the field, `undefined` when `o` has no field `f`. -/
def Obj.get (o : Obj) (f : String) : Val :=
  (o.lookup f).getD Val.undefined

/-- What stands in element-type position of a JSX tag in the file: the fragment
`<>`, the host tag `br`, the six Chakra imports, the router import `Link` and the
two layout imports `Footer` and `Header`. -/
inductive Comp where
  | Fragment
  | br
  | Box
  | Image
  | Button
  | Text
  | Heading
  | Flex
  | Link
  | Footer
  | Header
  deriving DecidableEq, Repr

/-- An element tree: a JSX element with its type, `key`, attributes and children,
or a JavaScript value in child position (JSX text or `{expr}`). -/
inductive Element where
  | node (type : Comp) (key : Option Val) (props : Obj) (children : List Element)
  | text (v : Val)
  deriving Repr

/-- The values bound by `import Petunjuk1 from '../assets/petunjuk-1.png'` and its
two siblings.  The image files and the bundler that resolves them are not part of
the source file, so the three values are taken as given. -/
structure Assets where
  Petunjuk1 : Val
  Petunjuk2 : Val
  Petunjuk3 : Val

/-- The array `property` (lines 17-36). -/
def property (env : Assets) : List Obj :=
  [ [ ("id", Val.num 1),
      ("imageUrl", env.Petunjuk1),
      ("imageAlt", Val.str "petunjuk-1"),
      ("text", Val.str "Tes ini terdiri dari xx pertanyaan, umumnya memakan waktu selama 10 menit.") ],
    [ ("id", Val.num 2),
      ("imageUrl", env.Petunjuk2),
      ("imageAlt", Val.str "petunjuk-2"),
      ("text", Val.str "Jika pernyataan di dalam soal sesuai dengan diri kamu, pilih “YA”. Jika tidak sesuai dengan kamu, pilih “TIDAK”") ],
    [ ("id", Val.num 3),
      ("imageUrl", env.Petunjuk3),
      ("imageAlt", Val.str "petunjuk-3"),
      ("text", Val.str "Tidak ada jawaban benar maupun salah, pilihlah jawaban yang sesuai dengan diri kamu.") ] ]

/-- The arrow function passed to `property.map` (lines 55-70): one card. -/
def card (el : Obj) : Element :=
  .node .Box (some (el.get "id")) [("w", .str "100%")]
    [ .node .Image none
        [ ("w", .str "100%"),
          ("objectFit", .str "cover"),
          ("border", .str "solid 1px"),
          ("borderColor", .str "primary.200"),
          ("borderRadius", .str "lg"),
          ("src", el.get "imageUrl"),
          ("alt", el.get "imageAlt") ]
        [],
      .node .Text none [("mt", .num 3)] [.text (el.get "text")] ]

/-- The expression `rs.map((el) => ...)` for an array `rs` without holes: the
callback applied to every entry, in index order. -/
def cards (rs : List Obj) : List Element :=
  rs.map card

/-- The component function (lines 16-85).  It declares no parameter; `props` is
the argument a caller passes, which the body never reads. -/
def TestOpening (env : Assets) (_props : Obj) : Element :=
  .node .Fragment none []
    [ .node .Header none [] [],
      .node .br none [] [],
      .node .Box none
        [("id", .str "test-opening"), ("w", .str "100%"), ("py", .num 16), ("px", .num 36),
         ("color", .str "black")]
        [ .node .Flex none
            [("textAlign", .str "center"), ("alignItems", .str "center"),
             ("flexDirection", .str "column"), ("gap", .num 12)]
            [ .node .Box none []
                [ .node .Heading none [("as", .str "h1"), ("size", .str "lg"), ("mb", .num 6)]
                    [.text (.str "Pengenalan Tes Minat Bakat")],
                  .node .Text none [("w", .str "2xl")]
                    [.text (.str "Tes ini digunakan untuk mencari tahu tentang kelebihan dan kelemahan kamu, jurusan studi, serta karir yang cocok dengan minat dan bakatmu")] ],
              .node .Flex none [("className", .str "guide-container"), ("gap", .num 9)]
                (cards (property env)),
              .node .Box none []
                [ .node .Link none [("to", .str "/test-page-1")]
                    [ .node .Button none
                        [("colorScheme", .str "gray.600"), ("backgroundColor", .str "primary.500")]
                        [.text (.str "MULAI TES SEKARANG")] ] ] ] ],
      .node .Footer none [] [] ]

/-! ## Observers on element trees -/

namespace Element

/-- Element type of a node (`none` for a value in child position). -/
def type? : Element → Option Comp
  | .node t _ _ _ => some t
  | .text _ => none

/-- The `key` attribute of a node. -/
def key? : Element → Option Val
  | .node _ k _ _ => k
  | .text _ => none

/-- The attributes of a node. -/
def props : Element → Obj
  | .node _ _ ps _ => ps
  | .text _ => []

/-- The children of a node. -/
def children : Element → List Element
  | .node _ _ _ cs => cs
  | .text _ => []

/-- The value of attribute `f` of a node, `none` when it is not written. -/
def prop? (e : Element) (f : String) : Option Val :=
  e.props.lookup f

/-- Is the element a node of type `t`? -/
def isA (t : Comp) (e : Element) : Bool :=
  e.type? == some t

mutual
/-- Every element of the tree in document order, the root first. -/
def subtrees : Element → List Element
  | .node t k ps cs => .node t k ps cs :: subtreesList cs
  | .text v => [.text v]
/-- Document-order traversal of a list of siblings. -/
def subtreesList : List Element → List Element
  | [] => []
  | c :: cs => subtrees c ++ subtreesList cs
end

/-- The nodes of type `t` in the tree, in document order. -/
def byType (t : Comp) (e : Element) : List Element :=
  e.subtrees.filter (isA t)

/-- The nodes whose attribute `f` is written with the string `v`. -/
def byAttr (f v : String) (e : Element) : List Element :=
  e.subtrees.filter (fun x => x.prop? f == some (Val.str v))

/-- The elements of the tree that carry a `key`. -/
def keyed (e : Element) : List Element :=
  e.subtrees.filter (fun x => x.key?.isSome)

/-- The instruction cards of a tree: the children of its nodes of class
`guide-container`. -/
def instructionCards (e : Element) : List Element :=
  ((byAttr "className" "guide-container" e).map children).flatten

/-- Every destination written in the tree: the values of the attributes `to` and
`href` of all nodes, in document order. -/
def navTargets (e : Element) : List Val :=
  (e.subtrees.map (fun x => (x.props.filter (fun kv => kv.1 == "to" || kv.1 == "href")).map Prod.snd)).flatten

mutual
/-- For each `Button` of the tree, in document order, the destinations of the
`Link` nodes that enclose it, innermost first; `above` holds those met so far. -/
def enclosingLinks (above : List Val) : Element → List (List Val)
  | .node t _ ps cs =>
      (if t = Comp.Button then [above] else []) ++
        enclosingLinksList (if t = Comp.Link then Obj.get ps "to" :: above else above) cs
  | .text _ => []
/-- The same for a list of siblings. -/
def enclosingLinksList (above : List Val) : List Element → List (List Val)
  | [] => []
  | c :: cs => enclosingLinks above c ++ enclosingLinksList above cs
end

end Element

/-- The fields of a record that the card template reads (`el.id`, `el.imageUrl`,
`el.imageAlt`, `el.text`, lines 56-67). -/
def cardFields : List String :=
  ["id", "imageUrl", "imageAlt", "text"]

/-- The record `r` cut down to the fields of `cardFields`. -/
def restrict (r : Obj) : Obj :=
  cardFields.map (fun f => (f, r.get f))

open Element

/-! ## The rendered cards -/

/-- Claim C1: the tree returned by `TestOpening` has one node of class
`guide-container`, a `Flex`; its children, the instruction cards, are three `Box`
nodes whose keys in render order are 1, 2, 3, and they are the only keyed elements
of the whole tree. -/
theorem testOpening_three_cards (env : Assets) (p : Obj) :
    (byAttr "className" "guide-container" (TestOpening env p)).map type? = [some Comp.Flex] ∧
    (instructionCards (TestOpening env p)).length = 3 ∧
    (instructionCards (TestOpening env p)).map key? =
      [some (Val.num 1), some (Val.num 2), some (Val.num 3)] ∧
    (instructionCards (TestOpening env p)).map type? =
      [some Comp.Box, some Comp.Box, some Comp.Box] ∧
    keyed (TestOpening env p) = instructionCards (TestOpening env p) :=
  ⟨rfl, rfl, rfl, rfl, rfl⟩

/-- Claim C2: for each of the three positions, the card at that position is an
`Image` followed by a `Text`; the image has alt text `petunjuk-i` and the i-th
imported asset as `src`, and the text is the i-th literal caption, which is the
`text` field of the i-th record of `property`.  The caption of the first card
starts with "Tes ini terdiri dari xx pertanyaan". -/
theorem testOpening_card_contents (env : Assets) (p : Obj) :
    (∀ i : Fin 3, ∃ c img txt cap,
      (instructionCards (TestOpening env p))[i.val]? = some c ∧
      c.children = [img, txt] ∧
      img.type? = some Comp.Image ∧
      img.prop? "alt" = some (Val.str ("petunjuk-" ++ toString (i.val + 1))) ∧
      some (img.prop? "src") =
        ([env.Petunjuk1, env.Petunjuk2, env.Petunjuk3][i.val]?).map some ∧
      txt.type? = some Comp.Text ∧
      txt.children = [Element.text (Val.str cap)] ∧
      some cap =
        ["Tes ini terdiri dari xx pertanyaan, umumnya memakan waktu selama 10 menit.",
         "Jika pernyataan di dalam soal sesuai dengan diri kamu, pilih “YA”. Jika tidak sesuai dengan kamu, pilih “TIDAK”",
         "Tidak ada jawaban benar maupun salah, pilihlah jawaban yang sesuai dengan diri kamu."][i.val]? ∧
      some (Val.str cap) = ((property env)[i.val]?).map (fun r => r.get "text")) ∧
    (∃ c img txt rest,
      (instructionCards (TestOpening env p))[0]? = some c ∧
      c.children = [img, txt] ∧
      txt.children =
        [Element.text (Val.str ("Tes ini terdiri dari xx pertanyaan" ++ rest))]) := by
  refine ⟨fun i => ?_, ?_⟩
  · fin_cases i
    · exact ⟨_, _, _, _, rfl, rfl, rfl, rfl, rfl, rfl, rfl, rfl, rfl⟩
    · exact ⟨_, _, _, _, rfl, rfl, rfl, rfl, rfl, rfl, rfl, rfl, rfl⟩
    · exact ⟨_, _, _, _, rfl, rfl, rfl, rfl, rfl, rfl, rfl, rfl, rfl⟩
  · refine ⟨_, _, _, ", umumnya memakan waktu selama 10 menit.", rfl, rfl, ?_⟩
    have h : "Tes ini terdiri dari xx pertanyaan, umumnya memakan waktu selama 10 menit." =
        "Tes ini terdiri dari xx pertanyaan" ++ ", umumnya memakan waktu selama 10 menit." := by
      decide
    rw [← h]
    rfl

/-! ## Navigation -/

/-- Claim C3: the tree has exactly one `Link`; its `to` is `/test-page-1` and its
only child is a `Button`, the only one of the tree.  `/test-page-1` is the only
destination written anywhere in the tree, and the only `Link` enclosing the
`Button`: activating the control reaches that one link and no other route. -/
theorem testOpening_single_link (env : Assets) (p : Obj) :
    ((TestOpening env p).byType Comp.Link).length = 1 ∧
    ((TestOpening env p).byType Comp.Link).map (fun l => l.prop? "to") =
      [some (Val.str "/test-page-1")] ∧
    ((TestOpening env p).byType Comp.Link).map (fun l => l.children.map type?) =
      [[some Comp.Button]] ∧
    ((TestOpening env p).byType Comp.Link).map (fun l => (l.byType Comp.Button).length) = [1] ∧
    ((TestOpening env p).byType Comp.Button).length = 1 ∧
    navTargets (TestOpening env p) = [Val.str "/test-page-1"] ∧
    enclosingLinks [] (TestOpening env p) = [[Val.str "/test-page-1"]] :=
  ⟨rfl, rfl, rfl, rfl, rfl, rfl, rfl⟩

/-! ## Layout -/

/-- Claim C4: `Header` and `Footer` each occur exactly once in the tree, with no
attribute, no key and no child; the root is the fragment, `Header` is its first
child and `Footer` its last. -/
theorem testOpening_header_footer (env : Assets) (p : Obj) :
    (TestOpening env p).byType Comp.Header = [Element.node Comp.Header none [] []] ∧
    (TestOpening env p).byType Comp.Footer = [Element.node Comp.Footer none [] []] ∧
    (TestOpening env p).type? = some Comp.Fragment ∧
    (TestOpening env p).children.head? = some (Element.node Comp.Header none [] []) ∧
    (TestOpening env p).children.getLast? = some (Element.node Comp.Footer none [] []) :=
  ⟨rfl, rfl, rfl, rfl, rfl⟩

/-- Claim C5: the tree returned by `TestOpening` does not depend on the argument
it is called with: any two calls, with any two props values, return equal trees. -/
theorem testOpening_ignores_props (env : Assets) (p q : Obj) :
    TestOpening env p = TestOpening env q :=
  rfl

/-- Claim C6: the node with id `test-opening` has one child, the column `Flex`,
whose children are, in this order: a `Box` holding the `Heading` and the
description `Text`; the `guide-container` holding the three cards, each an `Image`
followed by a `Text`; a `Box` holding the `Link` around the `Button`.  The tree
has exactly one `Heading` and exactly one `Button`. -/
theorem testOpening_content_order (env : Assets) (p : Obj) :
    ∃ main col intro guide nav,
      byAttr "id" "test-opening" (TestOpening env p) = [main] ∧
      main.children = [col] ∧
      col.type? = some Comp.Flex ∧
      col.children = [intro, guide, nav] ∧
      intro.children.map type? = [some Comp.Heading, some Comp.Text] ∧
      byAttr "className" "guide-container" (TestOpening env p) = [guide] ∧
      guide.children.map (fun c => c.children.map type?) =
        [[some Comp.Image, some Comp.Text], [some Comp.Image, some Comp.Text],
         [some Comp.Image, some Comp.Text]] ∧
      nav.children.map type? = [some Comp.Link] ∧
      (nav.byType Comp.Button).length = 1 ∧
      (intro.byType Comp.Button).length = 0 ∧
      (guide.byType Comp.Button).length = 0 ∧
      ((TestOpening env p).byType Comp.Heading).length = 1 ∧
      ((TestOpening env p).byType Comp.Button).length = 1 :=
  ⟨_, _, _, _, _, rfl, rfl, rfl, rfl, rfl, rfl, rfl, rfl, rfl, rfl, rfl, rfl, rfl⟩

/-! ## The records -/

/-- Claim C7: the ids of the records of `property` are 1, 2, 3 in this order (the
record at position `k` has id `k + 1`), they are pairwise distinct, and so are the
keys of the rendered cards. -/
theorem property_ids_distinct (env : Assets) (p : Obj) :
    (property env).map (fun r => r.get "id") = [Val.num 1, Val.num 2, Val.num 3] ∧
    (∀ k : Fin 3, ((property env)[k.val]?).map (fun r => r.get "id") = some (Val.num (k.val + 1))) ∧
    ((property env).map (fun r => r.get "id")).Nodup ∧
    ((instructionCards (TestOpening env p)).map key?).Nodup := by
  refine ⟨rfl, fun k => ?_, ?_, ?_⟩
  · fin_cases k <;> rfl
  · show [Val.num 1, Val.num 2, Val.num 3].Nodup
    decide
  · show [some (Val.num 1), some (Val.num 2), some (Val.num 3)].Nodup
    decide

/-- Claim C8: `TestOpening` is a total function that returns an element (the
fragment) for every environment and argument; every record of `property` has each
of the four fields the card template reads, so no read yields `undefined` for want
of a field, and the template reads no other field: a card is determined by the
four fields of its record. -/
theorem testOpening_total (env : Assets) (p : Obj) :
    (∃ ps cs, TestOpening env p = Element.node Comp.Fragment none ps cs) ∧
    (property env).all (fun r => cardFields.all (fun f => (r.lookup f).isSome)) = true ∧
    (∀ r : Obj, card r = card (restrict r)) ∧
    instructionCards (TestOpening env p) = (property env).map card :=
  ⟨⟨_, _, rfl⟩, rfl, fun _ => rfl, rfl⟩

/-- Claim C9: rendering the cards of any list of records keeps length and order:
the result has as many cards as there are records, and the card at position `k`
has the key, image source, image alt text and caption read from the record at
position `k`. -/
theorem cards_preserve_order (rs : List Obj) :
    (cards rs).length = rs.length ∧
    ∀ k : Fin rs.length, ∃ c img txt,
      (cards rs)[k.val]? = some c ∧
      c.key? = some ((rs.get k).get "id") ∧
      c.children = [img, txt] ∧
      img.type? = some Comp.Image ∧
      img.prop? "src" = some ((rs.get k).get "imageUrl") ∧
      img.prop? "alt" = some ((rs.get k).get "imageAlt") ∧
      txt.type? = some Comp.Text ∧
      txt.children = [Element.text ((rs.get k).get "text")] := by
  refine ⟨by simp [cards], fun k => ?_⟩
  refine ⟨card (rs.get k), _, _, ?_, rfl, rfl, rfl, rfl, rfl, rfl, rfl⟩
  simp [cards, List.getElem?_map]

end MyApp
